import Mathlib

/-!
Shallow embedding of `project_paths.py` (the project-paths module): caller-relative
discovery of `pyproject.toml`, parsing of the `[tool.project-paths]` table into a
registry of resolved paths, and the dynamic attribute plumbing around it.

Modelling conventions:
* POSIX pure paths (`pathlib.Path`) are modelled by `PurePath`: an absolute flag plus a
  list of components, with `Path(str)` as `parsePath` (drops empty and `"."` segments,
  keeps `".."`, as pathlib does).
* The filesystem is an abstract `is_file` predicate `PurePath → Bool`; the contents of a
  TOML file, as parsed by `toml.load`, are an abstract map `PurePath → Toml`.
* The Python call stack (`inspect.stack()`) is a list of `Frame`s carrying each frame's
  `f_globals.get("__name__")` and `f_globals.get("__file__")`.
* Python exceptions become constructors of `PyErr`; fallible code returns `Except`.
-/

set_option autoImplicit false

deriving instance DecidableEq for Except

/-- A pure POSIX path: `pathlib.Path` without drive/root subtleties beyond a single
absolute flag. `components` never contains `""` or `"."` when built by `parsePath`. -/
structure PurePath where
  absolute : Bool
  components : List String
deriving DecidableEq, Repr

/-- Splitting a character list on `/`, accumulating the current segment reversed:
the model of `str.split("/")` used by `parsePath`. -/
def splitSlashAux : List Char → List Char → List String
  | [], acc => [String.mk acc.reverse]
  | c :: rest, acc =>
    if c = '/' then String.mk acc.reverse :: splitSlashAux rest []
    else splitSlashAux rest (c :: acc)

/-- Whether the path string has a leading `/`. -/
def startsWithSlash (s : String) : Bool :=
  match s.data with
  | '/' :: _ => true
  | _ => false

/-- Models `pathlib.Path(s)` for POSIX strings: absolute iff the string starts with `/`;
components are the `/`-separated segments with empty and `"."` segments dropped
(pathlib normalises both away; `".."` is kept). -/
def parsePath (s : String) : PurePath :=
  ⟨startsWithSlash s, (splitSlashAux s.data []).filter (fun c => c != "" && c != ".")⟩

/-- Models `Path.parent`: drop the last component; the anchor (`/` or `.`) is its own
parent, as in pathlib. -/
def PurePath.parent (p : PurePath) : PurePath :=
  if p.components = [] then p else ⟨p.absolute, p.components.dropLast⟩

/-- Models `Path.parents`: the ancestors from the immediate parent outward, ending at
the anchor. `Path("/a/b").parents == [Path("/a"), Path("/")]`. -/
def PurePath.parents (p : PurePath) : List PurePath :=
  (List.range p.components.length).map
    (fun i => ⟨p.absolute, p.components.take (p.components.length - 1 - i)⟩)

/-- Models `Path.joinpath` / the `/` operator: an absolute right operand replaces the
left one; otherwise the components are concatenated. -/
def PurePath.join (p q : PurePath) : PurePath :=
  if q.absolute then q else ⟨p.absolute, p.components ++ q.components⟩

/-- Models `str(path)` for POSIX paths: `"/"`-joined components with the anchor. -/
def PurePath.render (p : PurePath) : String :=
  if p.absolute then "/" ++ String.intercalate "/" p.components
  else if p.components = [] then "." else String.intercalate "/" p.components

/-- Step of the lexical part of `Path.resolve`: `".."` removes the previous component. -/
def resolveStep (acc : List String) (c : String) : List String :=
  if c = ".." then acc.dropLast else acc ++ [c]

/-- Models `Path.resolve()` in a model with no symbolic links and the working directory
at the filesystem root: the result is absolute and `".."` components are eliminated. -/
def PurePath.resolve (p : PurePath) : PurePath :=
  ⟨true, p.components.foldl resolveStep []⟩

/-- A parsed TOML value, restricted to the shapes the module ever inspects: strings and
tables. `toml.load` returns nested dicts of such values; tables are association lists
since TOML keys within one table are unique. -/
inductive Toml where
  | str (s : String)
  | table (entries : List (String × Toml))

/-- Whether a parsed TOML value is a string (the shape `Path()` accepts). -/
def Toml.isStr : Toml → Bool
  | .str _ => true
  | .table _ => false

/-- First-match association-list lookup, modelling Python dict lookup (TOML tables have
unique keys, so first match is the match). -/
def dlookup {α : Type} : List (String × α) → String → Option α
  | [], _ => none
  | (k, v) :: rest, key => if k = key then some v else dlookup rest key

/-- The exceptions Python raises while subscripting a parsed TOML value:
`d[k]` raises `KeyError` for a missing key and `TypeError` when `d` is a string. -/
inductive SubscriptError where
  | keyError
  | typeError
deriving DecidableEq, Repr

/-- Models Python subscription `v[k]` on a parsed TOML value. -/
def Toml.subscript : Toml → String → Except SubscriptError Toml
  | .str _, _ => .error .typeError
  | .table es, k =>
    match dlookup es k with
    | some v => .ok v
    | none => .error .keyError

/-- The exceptions observable from the module, one constructor per Python exception
class: the module's own `PyProjectNotFoundError` and `ConfigurationNotFoundError`
(both subclasses of `ProjectPathsError`), plus the builtin exceptions its code can
raise (`AttributeError`, `RuntimeError`, `TypeError`, `AssertionError`). -/
inductive PyErr where
  | pyProjectNotFound (msg : String)
  | configurationNotFound (msg : String)
  | attributeError (msg : String)
  | runtimeError (msg : String)
  | typeError (msg : String)
  | assertionError
deriving DecidableEq, Repr

/-- Membership in the module's own exception hierarchy `ProjectPathsError`. -/
def PyErr.isProjectPathsError : PyErr → Bool
  | .pyProjectNotFound _ => true
  | .configurationNotFound _ => true
  | _ => false

/-- A stack frame as Discovery sees it: `f_globals.get("__name__")` and
`f_globals.get("__file__")` (either may be absent). -/
structure Frame where
  modName : Option String
  file : Option String
deriving DecidableEq, Repr

/-- The module's `__name__`. -/
def MODULE_NAME : String := "project_paths"

/-- The table name inside `[tool.*]` (`PYPROJECT_TABLE_NAME = "project-paths"`). -/
def PYPROJECT_TABLE_NAME : String := "project-paths"

/-- Translation of `_find_caller_module_name_and_file`: walk the stack innermost-first,
skip frames whose `__name__` is this module's, return the first other frame's module
name and file. A frame without a string `__name__` trips `assert isinstance(mod_name,
str)`; an exhausted stack raises `RuntimeError` (not a `ProjectPathsError`). The
`finally: del frame_info` only releases a reference and has no observable effect. -/
def _find_caller_module_name_and_file : List Frame → Except PyErr (String × Option String)
  | [] => .error (.runtimeError s!"cannot find any caller outside of {MODULE_NAME}")
  | fr :: rest =>
    if fr.modName = some MODULE_NAME then _find_caller_module_name_and_file rest
    else
      match fr.modName with
      | some m => .ok (m, fr.file)
      | none => .error .assertionError

/-- The `for directory in [working_directory, *working_directory.parents]` loop body of
`find_caller_relative_path_to_pyproject`: return the first `directory / "pyproject.toml"`
that is a file. -/
def findPyprojectLoop (is_file : PurePath → Bool) : List PurePath → Option PurePath
  | [] => none
  | d :: rest =>
    let candidate := d.join (parsePath "pyproject.toml")
    if is_file candidate then some candidate else findPyprojectLoop is_file rest

/-- Translation of `find_caller_relative_path_to_pyproject`: find the external caller's
file, walk from its directory up through the ancestors, return the first
`pyproject.toml` found, else raise `PyProjectNotFoundError` naming the start
directory. `assert working_file.is_file()` is modelled by the `is_file` check. -/
def find_caller_relative_path_to_pyproject (stack : List Frame)
    (is_file : PurePath → Bool) : Except PyErr PurePath :=
  match _find_caller_module_name_and_file stack with
  | .error e => .error e
  | .ok (mod_name, caller_filename) =>
    match caller_filename with
    | none =>
      .error (.pyProjectNotFound s!"unable to determine filename of calling module: {mod_name}")
    | some fn =>
      let working_file := parsePath fn
      if is_file working_file then
        let working_directory := working_file.parent
        match findPyprojectLoop is_file (working_directory :: working_directory.parents) with
        | some candidate => .ok candidate
        | none =>
          .error (.pyProjectNotFound
            s!"cannot find pyproject.toml within {working_file.parent.render} or its parents")
      else .error .assertionError

/-- Translation of `_make_path`: `Path(segment)` kept as-is when absolute, otherwise
`base.joinpath(Path(segment))`. -/
def _make_path (base : PurePath) (segment : String) : PurePath :=
  let original_path := parsePath segment
  if original_path.absolute then original_path else base.join original_path

/-- The dict comprehension in `_parse_paths`:
`{key: _make_path(base, path_str) for key, path_str in config.items()}`. Each value
must be a string — `Path(x)` raises `TypeError` for a dict value — and the first
offending entry raises. -/
def resolveEntries (base : PurePath) :
    List (String × Toml) → Except PyErr (List (String × PurePath))
  | [] => .ok []
  | (key, v) :: rest =>
    match v with
    | .str path_str => (resolveEntries base rest).map (fun m => (key, _make_path base path_str) :: m)
    | .table _ => .error (.typeError "argument should be a str or an os.PathLike object")

/-- The registry: a `Paths` instance as built by `Paths.__init__`, whose only state is
the `_paths` dict (modelled as an insertion-ordered association list, which is what a
Python dict with unique keys is). -/
structure Paths where
  _paths : List (String × PurePath)
deriving DecidableEq, Repr

/-- The `try` block of `Paths._parse_paths`:
`pyproject["tool"][PYPROJECT_TABLE_NAME]` as two Python subscripts. -/
def tomlNav (pyproject : Toml) : Except SubscriptError Toml :=
  (pyproject.subscript "tool").bind (fun t => t.subscript PYPROJECT_TABLE_NAME)

/-- Translation of `Paths._parse_paths`: load the TOML document of
`pyproject_path` (the file read and `toml.load` are abstracted into `docOf`), subscript
`pyproject["tool"][PYPROJECT_TABLE_NAME]` turning a `KeyError` into
`ConfigurationNotFoundError` naming the namespace and the resolved path (a `TypeError`
from subscripting a string propagates uncaught), then resolve every entry against the
file's parent directory. `config.items()` on a string value raises `AttributeError`.
The `assert base.is_dir()` is a filesystem check that always holds for a discovered
configuration file and is outside this model. -/
def Paths._parse_paths (docOf : PurePath → Toml) (pyproject_path : PurePath) :
    Except PyErr (List (String × PurePath)) :=
  match tomlNav (docOf pyproject_path) with
  | .error .keyError =>
    .error (.configurationNotFound
      s!"cannot find [tool.project-paths] within {pyproject_path.resolve.render}")
  | .error .typeError => .error (.typeError "string indices must be integers")
  | .ok config =>
    match config with
    | .str _ => .error (.attributeError "str object has no attribute items")
    | .table es => resolveEntries pyproject_path.parent es

/-- Translation of `Paths.__init__`: construct the registry from the parsed paths, or
propagate the exception (no partially built object exists on the error path). -/
def Paths.init (docOf : PurePath → Toml) (configuration_path : PurePath) :
    Except PyErr Paths :=
  (Paths._parse_paths docOf configuration_path).map Paths.mk

/-- Translation of `Paths.__getattr__`: the dynamic fallback that Python calls only
after ordinary attribute lookup fails; returns `self._paths[name]`, turning `KeyError`
into a bare `AttributeError`. -/
def Paths.__getattr__ (p : Paths) (name : String) : Except PyErr PurePath :=
  match dlookup p._paths name with
  | some v => .ok v
  | none => .error (.attributeError "")

/-- The keys of the registry's `_paths` dict. -/
def Paths.keys (p : Paths) : List String :=
  p._paths.map Prod.fst

/-- Models the list `object.__dir__()` returns for a `Paths` instance, restricted to the
attributes the class itself introduces in the source (its methods, plus the `_paths`
instance attribute); the real list additionally holds the names inherited from
`object`, which the claims never mention. -/
def Paths.objectDirNames : List String :=
  ["__init__", "_parse_paths", "__getattr__", "__dir__", "__len__", "_paths"]

/-- Strict lexicographic comparison of character lists by code point: the order
Python's `sorted` applies to `str`. -/
def strLtAux : List Char → List Char → Bool
  | [], [] => false
  | [], _ :: _ => true
  | _ :: _, [] => false
  | a :: as, b :: bs =>
    if a.toNat < b.toNat then true
    else if b.toNat < a.toNat then false
    else strLtAux as bs

/-- Non-strict string comparison by code point, modelling Python's `str` order. -/
def strLe (a b : String) : Bool :=
  strLtAux a.data b.data || a == b

/-- Translation of `Paths.__dir__`:
`sorted(set(super().__dir__()) | self._paths.keys())`, with the result of
`super().__dir__()` abstracted into the `objectDir` argument. -/
def Paths.__dir__ (objectDir : List String) (p : Paths) : List String :=
  ((objectDir ++ p.keys).dedup).insertionSort (fun a b => strLe a b = true)

/-- Translation of `Paths.__len__`: `len(self._paths)`. -/
def Paths.__len__ (p : Paths) : Nat :=
  p._paths.length

/-- The outcome of full Python attribute lookup `p.name` on a `Paths` instance. -/
inductive AttrResult where
  | preexisting (name : String)
  | path (p : PurePath)
  | err (e : PyErr)
deriving DecidableEq, Repr

/-- Models Python's `object.__getattribute__` protocol on a `Paths` instance: ordinary
lookup (the instance `__dict__` holding `_paths`, then the class attributes) wins; only
when it fails does the class's dynamic `__getattr__` run. -/
def Paths.getattribute (p : Paths) (name : String) : AttrResult :=
  if name ∈ Paths.objectDirNames then .preexisting name
  else
    match p.__getattr__ name with
    | .ok v => .path v
    | .error e => .err e

/-- Translation of `_get_default_paths`: discovery composed with construction. -/
def _get_default_paths (stack : List Frame) (is_file : PurePath → Bool)
    (docOf : PurePath → Toml) : Except PyErr Paths :=
  match find_caller_relative_path_to_pyproject stack is_file with
  | .ok pyproject_path => Paths.init docOf pyproject_path
  | .error e => .error e

/-- The module's `PATHS_ATTRIBUTE_NAME` constant. -/
def PATHS_ATTRIBUTE_NAME : String := "paths"

/-- Translation of the module-level `__getattr__` (PEP 562): reading the module
attribute `paths` builds a fresh registry via `_get_default_paths`; any other missing
name raises `AttributeError`. Nothing is cached: the body recomputes on every read. -/
def moduleGetattr (stack : List Frame) (is_file : PurePath → Bool)
    (docOf : PurePath → Toml) (name : String) : Except PyErr Paths :=
  if name = PATHS_ATTRIBUTE_NAME then _get_default_paths stack is_file docOf
  else .error (.attributeError s!"module 'project_paths' has no attribute '{name}'")

/-! Concrete inputs used by the witnesses and counterexamples. -/

/-- A one-frame stack: an external module `mod` living at `/proj/src/mod.py`. -/
def demoStack : List Frame := [{ modName := some "mod", file := some "/proj/src/mod.py" }]

/-- A filesystem where exactly `/proj/src/mod.py` and `/proj/pyproject.toml` are files. -/
def demoFs : PurePath → Bool := fun p =>
  p == parsePath "/proj/src/mod.py" || p == parsePath "/proj/pyproject.toml"

/-- The spec's scenario document: `[tool.project-paths]` with `tests = "tests/"` and
`abs = "/opt/x"`, at every path. -/
def demoDoc : PurePath → Toml := fun _ =>
  Toml.table [("tool", Toml.table [("project-paths",
    Toml.table [("tests", Toml.str "tests/"), ("abs", Toml.str "/opt/x")])])]

/-- The configuration file location of the spec's scenario. -/
def demoCfgPath : PurePath := parsePath "/proj/pyproject.toml"

/-- The `[tool.project-paths]` table of `demoDoc`. -/
def demoTable : List (String × Toml) :=
  [("tests", Toml.str "tests/"), ("abs", Toml.str "/opt/x")]

/-- The registry entries `demoDoc` resolves to. -/
def demoRegistry : List (String × PurePath) :=
  [("tests", parsePath "/proj/tests"), ("abs", parsePath "/opt/x")]

/-- A stack whose every frame belongs to this module. -/
def allInternalStack : List Frame :=
  [{ modName := some MODULE_NAME, file := some "/site-packages/project_paths.py" }]

/-- The empty filesystem: nothing is a file. -/
def noFs : PurePath → Bool := fun _ => false

/-- A registry holding the single key `tests`. -/
def demoPathsTests : Paths := ⟨[("tests", parsePath "/proj/tests")]⟩

/-- A document whose top-level `tool` key holds a string, not a table: `tool = "x"`
is a well-formed TOML file without a `[tool.project-paths]` table. -/
def strToolDoc : PurePath → Toml := fun _ => Toml.table [("tool", Toml.str "x")]

/-- A document that parses to an empty top-level table (no `tool` key at all). -/
def emptyDoc : PurePath → Toml := fun _ => Toml.table []

/-- A document whose `[tool.project-paths]` table declares the key `_paths`, which
collides with the registry object's own instance attribute. -/
def collidingDoc : PurePath → Toml := fun _ =>
  Toml.table [("tool", Toml.table [("project-paths",
    Toml.table [("_paths", Toml.str "x/")])])]

/-- The `[tool.project-paths]` table of `collidingDoc`. -/
def collidingTable : List (String × Toml) := [("_paths", Toml.str "x/")]

/-- The registry entries `collidingDoc` resolves to. -/
def collidingRegistry : List (String × PurePath) := [("_paths", parsePath "/proj/x")]

/-! Helper lemmas shared by the claim theorems. -/

/-- The ancestor-walk loop returns the candidate of the first directory in the list
whose `pyproject.toml` is a file. -/
theorem findPyprojectLoop_eq_find (is_file : PurePath → Bool) (ds : List PurePath) :
    findPyprojectLoop is_file ds =
      (ds.find? (fun d => is_file (d.join (parsePath "pyproject.toml")))).map
        (fun d => d.join (parsePath "pyproject.toml")) := by
  induction ds with
  | nil => rfl
  | cons d rest ih =>
    simp only [findPyprojectLoop, List.find?]
    cases h : is_file (d.join (parsePath "pyproject.toml")) with
    | true => simp [h]
    | false => simp [h, ih]

/-- `dlookup` succeeds exactly on the keys of the association list. -/
theorem dlookup_isSome_iff {α : Type} (l : List (String × α)) (key : String) :
    (dlookup l key).isSome = true ↔ key ∈ l.map Prod.fst := by
  induction l with
  | nil => simp [dlookup]
  | cons hd rest ih =>
    by_cases h : hd.1 = key
    · simp [dlookup, h]
    · simp only [dlookup, if_neg h, List.map_cons, List.mem_cons, ih]
      constructor
      · exact fun hk => Or.inr hk
      · rintro (hk | hk)
        · exact absurd hk.symm h
        · exact hk

/-- `dlookup` fails exactly off the keys of the association list. -/
theorem dlookup_eq_none_iff {α : Type} (l : List (String × α)) (key : String) :
    dlookup l key = none ↔ key ∉ l.map Prod.fst := by
  rw [← dlookup_isSome_iff l key]
  cases h : dlookup l key <;> simp [h]

/-- A successful `resolveEntries` keeps the keys, in order and multiplicity. -/
theorem resolveEntries_ok_keys (base : PurePath) (es : List (String × Toml))
    (m : List (String × PurePath)) (h : resolveEntries base es = .ok m) :
    m.map Prod.fst = es.map Prod.fst := by
  induction es generalizing m with
  | nil =>
    simp only [resolveEntries, Except.ok.injEq] at h
    simp [← h]
  | cons hd rest ih =>
    obtain ⟨k0, v0⟩ := hd
    cases v0 with
    | str s =>
      simp only [resolveEntries] at h
      cases hr : resolveEntries base rest with
      | error e => rw [hr] at h; simp [Except.map] at h
      | ok m' =>
        rw [hr] at h
        simp only [Except.map, Except.ok.injEq] at h
        subst h
        simp [ih m' hr]
    | table t => simp [resolveEntries] at h

/-- Every string-valued table entry lands in a successful `resolveEntries` result,
resolved by `_make_path` against the base directory. -/
theorem resolveEntries_ok_mem (base : PurePath) (es : List (String × Toml))
    (m : List (String × PurePath)) (k : String) (v : String)
    (h : resolveEntries base es = .ok m) (hm : (k, Toml.str v) ∈ es) :
    (k, _make_path base v) ∈ m := by
  induction es generalizing m with
  | nil => cases hm
  | cons hd rest ih =>
    obtain ⟨k0, v0⟩ := hd
    cases hm with
    | head =>
      simp only [resolveEntries] at h
      cases hr : resolveEntries base rest with
      | error e => rw [hr] at h; simp [Except.map] at h
      | ok m' =>
        rw [hr] at h
        simp only [Except.map, Except.ok.injEq] at h
        subst h
        exact List.mem_cons_self _ _
    | tail _ htail =>
      cases v0 with
      | str s =>
        simp only [resolveEntries] at h
        cases hr : resolveEntries base rest with
        | error e => rw [hr] at h; simp [Except.map] at h
        | ok m' =>
          rw [hr] at h
          simp only [Except.map, Except.ok.injEq] at h
          subst h
          exact List.mem_cons_of_mem _ (ih m' hr htail)
      | table t => simp [resolveEntries] at h

/-- When every table value is a string, `resolveEntries` succeeds. -/
theorem resolveEntries_all_str (base : PurePath) (es : List (String × Toml))
    (h : es.all (fun p => p.2.isStr) = true) :
    ∃ m, resolveEntries base es = .ok m := by
  induction es with
  | nil => exact ⟨[], rfl⟩
  | cons hd rest ih =>
    obtain ⟨k0, v0⟩ := hd
    simp only [List.all_cons, Bool.and_eq_true] at h
    cases v0 with
    | str s =>
      obtain ⟨m', hm'⟩ := ih h.2
      exact ⟨(k0, _make_path base s) :: m', by simp [resolveEntries, hm', Except.map]⟩
    | table t => simp [Toml.isStr] at h

/-- `_make_path` written out: the parsed segment verbatim when absolute, otherwise the
base directory's components extended by the segment's. -/
theorem make_path_eq (base : PurePath) (segment : String) :
    _make_path base segment =
      if (parsePath segment).absolute then parsePath segment
      else ⟨base.absolute, base.components ++ (parsePath segment).components⟩ := by
  unfold _make_path PurePath.join
  cases h : (parsePath segment).absolute <;> simp [h]

/-- Inversion of a successful `Paths._parse_paths`: the subscript chain reached a
table and `resolveEntries` succeeded on it. -/
theorem parse_paths_ok_inv (docOf : PurePath → Toml) (cfgPath : PurePath)
    (m : List (String × PurePath)) (h : Paths._parse_paths docOf cfgPath = .ok m) :
    ∃ es, tomlNav (docOf cfgPath) = .ok (.table es) ∧
      resolveEntries cfgPath.parent es = .ok m := by
  unfold Paths._parse_paths at h
  cases hnav : tomlNav (docOf cfgPath) with
  | error se => rw [hnav] at h; cases se <;> exact absurd h (by simp)
  | ok t =>
    rw [hnav] at h
    cases t with
    | str s => exact absurd h (by simp)
    | table es => exact ⟨es, rfl, h⟩

/-- A stack made only of this module's frames exhausts the caller search with the
`RuntimeError`. -/
theorem find_caller_all_internal (stack : List Frame)
    (h : ∀ fr ∈ stack, fr.modName = some MODULE_NAME) :
    _find_caller_module_name_and_file stack =
      .error (.runtimeError s!"cannot find any caller outside of {MODULE_NAME}") := by
  induction stack with
  | nil => rfl
  | cons fr rest ih =>
    have hfr : fr.modName = some MODULE_NAME := h fr (List.mem_cons_self _ _)
    simp only [_find_caller_module_name_and_file, if_pos hfr]
    exact ih (fun g hg => h g (List.mem_cons_of_mem _ hg))

/-! The claims. -/

/-- C1: discovery from a caller file in directory `D` checks `D` and then each ancestor
of `D` innermost-to-outermost (the list `D :: D.parents`), returns the
`pyproject.toml` of the first directory containing one as a file, and otherwise fails
with the module's NotFound error naming `D`. -/
theorem discovery_returns_nearest_ancestor (stack : List Frame)
    (is_file : PurePath → Bool) (m f : String)
    (hcaller : _find_caller_module_name_and_file stack = .ok (m, some f))
    (hfile : is_file (parsePath f) = true) :
    find_caller_relative_path_to_pyproject stack is_file =
      match ((parsePath f).parent :: (parsePath f).parent.parents).find?
          (fun d => is_file (d.join (parsePath "pyproject.toml"))) with
      | some d => .ok (d.join (parsePath "pyproject.toml"))
      | none => .error (.pyProjectNotFound
          s!"cannot find pyproject.toml within {(parsePath f).parent.render} or its parents") := by
  simp only [find_caller_relative_path_to_pyproject, hcaller, hfile, if_true]
  rw [findPyprojectLoop_eq_find]
  cases hf : ((parsePath f).parent :: (parsePath f).parent.parents).find?
      (fun d => is_file (d.join (parsePath "pyproject.toml"))) <;> simp [hf]

/-- Witness for C1: from `/proj/src/mod.py` with the configuration at
`/proj/pyproject.toml`, discovery returns `/proj/pyproject.toml`. -/
theorem discovery_returns_nearest_ancestor_witness :
    _find_caller_module_name_and_file demoStack = .ok ("mod", some "/proj/src/mod.py") ∧
    demoFs (parsePath "/proj/src/mod.py") = true ∧
    find_caller_relative_path_to_pyproject demoStack demoFs =
      .ok (parsePath "/proj/pyproject.toml") := by
  refine ⟨by decide, by decide, ?_⟩
  have h := discovery_returns_nearest_ancestor demoStack demoFs "mod" "/proj/src/mod.py"
    (by decide) (by decide)
  exact h.trans (by decide)

/-- C2: each string entry of the configuration table is stored in the registry
resolved: kept verbatim when the parsed value is absolute, otherwise with the
configuration file's parent directory's components prepended. -/
theorem registry_resolves_entries (docOf : PurePath → Toml) (cfgPath : PurePath)
    (es : List (String × Toml)) (m : List (String × PurePath)) (k v : String)
    (hnav : tomlNav (docOf cfgPath) = .ok (.table es))
    (hok : Paths._parse_paths docOf cfgPath = .ok m)
    (hmem : (k, Toml.str v) ∈ es) :
    (k, if (parsePath v).absolute then parsePath v
        else ⟨cfgPath.parent.absolute,
              cfgPath.parent.components ++ (parsePath v).components⟩) ∈ m := by
  obtain ⟨es', hnav', hres⟩ := parse_paths_ok_inv docOf cfgPath m hok
  rw [hnav] at hnav'
  injection hnav' with h1
  injection h1 with h2
  subst h2
  rw [← make_path_eq]
  exact resolveEntries_ok_mem _ _ _ _ _ hres hmem

/-- Witness for C2: the spec's scenario — `/proj/pyproject.toml` with
`tests = "tests/"` and `abs = "/opt/x"` resolves `tests` to `/proj/tests` and `abs`
to `/opt/x`. -/
theorem registry_resolves_entries_witness :
    Paths._parse_paths demoDoc demoCfgPath = .ok demoRegistry ∧
    ("tests", parsePath "/proj/tests") ∈ demoRegistry ∧
    ("abs", parsePath "/opt/x") ∈ demoRegistry := by
  refine ⟨by rfl, ?_, ?_⟩
  · have h := registry_resolves_entries demoDoc demoCfgPath demoTable demoRegistry
      "tests" "tests/" (by rfl) (by rfl) (List.Mem.head _)
    have e : (if (parsePath "tests/").absolute then parsePath "tests/"
        else ⟨demoCfgPath.parent.absolute,
              demoCfgPath.parent.components ++ (parsePath "tests/").components⟩) =
        parsePath "/proj/tests" := by decide
    exact e ▸ h
  · have h := registry_resolves_entries demoDoc demoCfgPath demoTable demoRegistry
      "abs" "/opt/x" (by rfl) (by rfl) (List.Mem.tail _ (List.Mem.head _))
    have e : (if (parsePath "/opt/x").absolute then parsePath "/opt/x"
        else ⟨demoCfgPath.parent.absolute,
              demoCfgPath.parent.components ++ (parsePath "/opt/x").components⟩) =
        parsePath "/opt/x" := by decide
    exact e ▸ h

/-- C3: a configuration table of `N` string entries builds a registry of exactly `N`
entries, one per table key in order (no key dropped, merged, or duplicated), and
`__len__` reports `N`. -/
theorem registry_size_matches_table (docOf : PurePath → Toml) (cfgPath : PurePath)
    (es : List (String × Toml))
    (hnav : tomlNav (docOf cfgPath) = .ok (.table es))
    (hstr : es.all (fun p => p.2.isStr) = true) :
    ∃ m, Paths._parse_paths docOf cfgPath = .ok m ∧
      m.map Prod.fst = es.map Prod.fst ∧ (Paths.mk m).__len__ = es.length := by
  obtain ⟨m, hm⟩ := resolveEntries_all_str cfgPath.parent es hstr
  refine ⟨m, ?_, resolveEntries_ok_keys _ _ _ hm, ?_⟩
  · unfold Paths._parse_paths
    rw [hnav]
    exact hm
  · have hk := congrArg List.length (resolveEntries_ok_keys _ _ _ hm)
    simpa [Paths.__len__] using hk

/-- Witness for C3: the two-entry scenario table builds a two-entry registry with the
same keys. -/
theorem registry_size_matches_table_witness :
    tomlNav (demoDoc demoCfgPath) = .ok (.table demoTable) ∧
    demoTable.all (fun p => p.2.isStr) = true ∧
    Paths._parse_paths demoDoc demoCfgPath = .ok demoRegistry ∧
    demoRegistry.map Prod.fst = demoTable.map Prod.fst ∧
    (Paths.mk demoRegistry).__len__ = demoTable.length := by
  obtain ⟨m, h1, h2, h3⟩ := registry_size_matches_table demoDoc demoCfgPath demoTable rfl rfl
  have hm : Except.ok m = Except.ok demoRegistry :=
    h1.symm.trans (by decide : Paths._parse_paths demoDoc demoCfgPath = .ok demoRegistry)
  injection hm with hm
  subst hm
  exact ⟨rfl, rfl, h1, h2, h3⟩

/-- Counterexample for C4: on a stack made only of this module's frames, discovery
fails with a plain `RuntimeError`, which is not of the module's NotFound
(`ProjectPathsError`) kind. -/
theorem discovery_exhausted_raises_runtime_error :
    find_caller_relative_path_to_pyproject allInternalStack noFs =
      .error (.runtimeError "cannot find any caller outside of project_paths") ∧
    PyErr.isProjectPathsError
      (.runtimeError "cannot find any caller outside of project_paths") = false :=
  ⟨by decide, by decide⟩

/-- C4 (amended): if every frame on the stack belongs to this module, discovery fails
with a generic `RuntimeError` stating that no caller outside the module was found —
not with the module's NotFound-kind discovery error. -/
theorem discovery_exhausted_error_kind (stack : List Frame) (is_file : PurePath → Bool)
    (h : ∀ fr ∈ stack, fr.modName = some MODULE_NAME) :
    find_caller_relative_path_to_pyproject stack is_file =
      .error (.runtimeError s!"cannot find any caller outside of {MODULE_NAME}") := by
  simp only [find_caller_relative_path_to_pyproject, find_caller_all_internal stack h]

/-- Witness for C4 (amended): a single-frame stack belonging to the module. -/
theorem discovery_exhausted_error_kind_witness :
    (∀ fr ∈ allInternalStack, fr.modName = some MODULE_NAME) ∧
    find_caller_relative_path_to_pyproject allInternalStack noFs =
      .error (.runtimeError "cannot find any caller outside of project_paths") := by
  refine ⟨by decide, ?_⟩
  have h := discovery_exhausted_error_kind allInternalStack noFs (by decide)
  exact h.trans (by decide)

/-- Counterexample for C5: `__dir__` of a registry with the single key `tests` contains
`__len__`, which is not a declared key — the result is not equal to the set of
declared keys. -/
theorem dir_includes_builtin_attributes :
    "__len__" ∈ Paths.__dir__ Paths.objectDirNames demoPathsTests ∧
    "__len__" ∉ demoPathsTests.keys := by
  refine ⟨by decide, by decide⟩

/-- C5 (amended): `__dir__` enumerates exactly the union of the object's ordinary
attribute names and the declared keys — every declared key is present, but the
ordinary attribute names are present as well. -/
theorem dir_is_union_of_builtin_and_keys (objectDir : List String) (p : Paths)
    (x : String) :
    x ∈ Paths.__dir__ objectDir p ↔ (x ∈ objectDir ∨ x ∈ p.keys) := by
  unfold Paths.__dir__
  rw [(List.perm_insertionSort (fun a b => strLe a b = true)
      ((objectDir ++ p.keys).dedup)).mem_iff,
    List.mem_dedup, List.mem_append]

/-- Counterexample for C6: the well-formed TOML document `tool = "x"` parses and has no
`[tool.project-paths]` table, yet building the registry fails with an uncaught
`TypeError` — not with the module's Configuration-Not-Found error. -/
theorem config_missing_table_type_error :
    Paths._parse_paths strToolDoc demoCfgPath =
      .error (.typeError "string indices must be integers") ∧
    PyErr.isProjectPathsError (.typeError "string indices must be integers") = false :=
  ⟨by decide, by decide⟩

/-- C6 (amended): whenever the subscript chain `pyproject["tool"]["project-paths"]`
fails with a missing key (no `tool` key, or a `tool` table without `project-paths`),
building the registry fails with `ConfigurationNotFoundError` whose message names the
`[tool.project-paths]` namespace and the resolved configuration file path; a non-table
`tool` value instead lets a `TypeError` escape. -/
theorem config_missing_key_not_found_error (docOf : PurePath → Toml)
    (cfgPath : PurePath) (h : tomlNav (docOf cfgPath) = .error .keyError) :
    Paths._parse_paths docOf cfgPath =
      .error (.configurationNotFound
        s!"cannot find [tool.project-paths] within {cfgPath.resolve.render}") := by
  unfold Paths._parse_paths
  rw [h]

/-- Witness for C6 (amended): a document with no `tool` key at all. -/
theorem config_missing_key_not_found_error_witness :
    tomlNav (emptyDoc demoCfgPath) = .error .keyError ∧
    Paths._parse_paths emptyDoc demoCfgPath =
      .error (.configurationNotFound
        "cannot find [tool.project-paths] within /proj/pyproject.toml") := by
  refine ⟨rfl, ?_⟩
  have h := config_missing_key_not_found_error emptyDoc demoCfgPath rfl
  exact h.trans (by decide)

/-- C7: the dynamic lookup `Paths.__getattr__` returns the stored resolved path exactly
for the keys of the registry's mapping; for any other name it fails with a bare
`AttributeError`, which is not of the module's `ProjectPathsError` kind, and never
returns a default. -/
theorem getattr_returns_key_iff (p : Paths) (name : String) :
    (∀ v, dlookup p._paths name = some v → p.__getattr__ name = .ok v) ∧
    (dlookup p._paths name = none →
      p.__getattr__ name = .error (.attributeError "") ∧
      PyErr.isProjectPathsError (.attributeError "") = false) ∧
    ((∃ v, p.__getattr__ name = .ok v) ↔ name ∈ p.keys) := by
  refine ⟨?_, ?_, ?_⟩
  · intro v hv
    simp [Paths.__getattr__, hv]
  · intro hv
    exact ⟨by simp [Paths.__getattr__, hv], rfl⟩
  · have h2 := dlookup_isSome_iff p._paths name
    unfold Paths.keys
    rw [← h2]
    unfold Paths.__getattr__
    cases h : dlookup p._paths name <;> simp [h]

/-- Witness for C7: on the one-key registry, `tests` resolves and `docs` raises. -/
theorem getattr_returns_key_iff_witness :
    demoPathsTests.__getattr__ "tests" = .ok (parsePath "/proj/tests") ∧
    demoPathsTests.__getattr__ "docs" = .error (.attributeError "") := by
  have h1 := (getattr_returns_key_iff demoPathsTests "tests").1 (parsePath "/proj/tests")
    (by decide)
  have h2 := ((getattr_returns_key_iff demoPathsTests "docs").2.1 (by decide)).1
  exact ⟨h1, h2⟩

/-- C8: every read of the module attribute `paths` is the composition of a fresh
Discovery on the current stack with a fresh registry construction from the discovered
configuration file — the accessor is a pure function of the current caller context,
with no cached registry. -/
theorem paths_accessor_composes_discovery_and_build (stack : List Frame)
    (is_file : PurePath → Bool) (docOf : PurePath → Toml) :
    moduleGetattr stack is_file docOf PATHS_ATTRIBUTE_NAME =
      match find_caller_relative_path_to_pyproject stack is_file with
      | .ok pyproject_path => Paths.init docOf pyproject_path
      | .error e => .error e := rfl

/-- C9: registry construction is all-or-nothing — either `Paths.init` returns a
registry holding every resolved entry of the table (same keys, each string entry
resolved by `_make_path`), or it returns an error and no registry exists. -/
theorem build_is_all_or_nothing (docOf : PurePath → Toml) (cfgPath : PurePath) :
    (∃ m es, Paths.init docOf cfgPath = .ok (Paths.mk m) ∧
      tomlNav (docOf cfgPath) = .ok (.table es) ∧
      m.map Prod.fst = es.map Prod.fst ∧
      (∀ k v, (k, Toml.str v) ∈ es → (k, _make_path cfgPath.parent v) ∈ m)) ∨
    (∃ e, Paths.init docOf cfgPath = .error e) := by
  cases h : Paths._parse_paths docOf cfgPath with
  | ok m =>
    left
    obtain ⟨es, hnav, hres⟩ := parse_paths_ok_inv docOf cfgPath m h
    exact ⟨m, es, by simp [Paths.init, h, Except.map], hnav,
      resolveEntries_ok_keys _ _ _ hres,
      fun k v hm => resolveEntries_ok_mem _ _ _ _ _ hres hm⟩
  | error e =>
    right
    exact ⟨e, by simp [Paths.init, h, Except.map]⟩

/-- C10: a table key that coincides with a pre-existing attribute of the registry
object (such as `_paths` or `__len__`) is shadowed by ordinary attribute lookup —
`getattribute` returns the pre-existing attribute, never the resolved path — yet the
key is stored in the mapping and counted by `__len__`. -/
theorem colliding_keys_shadowed (docOf : PurePath → Toml) (cfgPath : PurePath)
    (es : List (String × Toml)) (m : List (String × PurePath)) (k : String)
    (hnav : tomlNav (docOf cfgPath) = .ok (.table es))
    (hok : Paths._parse_paths docOf cfgPath = .ok m)
    (hkey : k ∈ es.map Prod.fst)
    (hcoll : k ∈ Paths.objectDirNames) :
    (Paths.mk m).getattribute k = .preexisting k ∧
    (∀ v, (Paths.mk m).getattribute k ≠ .path v) ∧
    k ∈ (Paths.mk m).keys ∧
    (Paths.mk m).__len__ = es.length := by
  have hga : (Paths.mk m).getattribute k = .preexisting k := by
    simp [Paths.getattribute, hcoll]
  obtain ⟨es', hnav', hres⟩ := parse_paths_ok_inv docOf cfgPath m hok
  rw [hnav] at hnav'
  injection hnav' with h1
  injection h1 with h2
  subst h2
  have hkeys := resolveEntries_ok_keys _ _ _ hres
  refine ⟨hga, ?_, ?_, ?_⟩
  · intro v hv
    rw [hga] at hv
    exact AttrResult.noConfusion hv
  · show k ∈ m.map Prod.fst
    rw [hkeys]
    exact hkey
  · have hl := congrArg List.length hkeys
    simpa [Paths.__len__] using hl

/-- Witness for C10: a table declaring the key `_paths` builds a one-entry registry in
which `_paths` is shadowed by the instance attribute. -/
theorem colliding_keys_shadowed_witness :
    tomlNav (collidingDoc demoCfgPath) = .ok (.table collidingTable) ∧
    Paths._parse_paths collidingDoc demoCfgPath = .ok collidingRegistry ∧
    "_paths" ∈ collidingTable.map Prod.fst ∧
    "_paths" ∈ Paths.objectDirNames ∧
    (Paths.mk collidingRegistry).getattribute "_paths" = .preexisting "_paths" ∧
    "_paths" ∈ (Paths.mk collidingRegistry).keys ∧
    (Paths.mk collidingRegistry).__len__ = collidingTable.length := by
  have h := colliding_keys_shadowed collidingDoc demoCfgPath collidingTable
    collidingRegistry "_paths" rfl (by decide) (by decide) (by decide)
  exact ⟨rfl, by decide, by decide, by decide, h.1, h.2.2.1, h.2.2.2⟩
